import Mathlib

/-!
Shallow embedding of the read-only FAT32 volume-access engine in
`src/assignment3/vfat.c`, together with theorems settling the spec claims.

Conventions:
* machine integers are `Nat`; C unsigned wraparound is written `% 2 ^ 32`
  where the source computes in `uint32_t`;
* disk/cluster memory is a total function `Nat → Nat` (byte index → byte
  value), so reads past a buffer's end — which the C code can perform —
  are representable;
* loops are fueled; running out of fuel models non-termination where the
  distinction matters (`follow_fat_chain` returns `none`).
The boot-sector and directory-record field layout comes from the header
`vfat.h`, which is not part of the repository sources; those offsets and
field names are modelled from the spec (section 6: "FAT32 boot sector
(fixed byte layout, BPB + FAT32 extension block with signature 0xAA55)",
"32-byte short-name directory records (name[11], attribute byte,
timestamps, size, cluster-hi/cluster-lo)") and from the field uses in
`vfat.c` itself.
-/

namespace VFat

/-- FAT32-specific tail of the boot sector (`struct fat_boot_fat32`).
Modelled from the spec: the struct lives in the missing header `vfat.h`;
the fields kept here are exactly the ones `vfat.c` reads
(`sectors_per_fat`, `version`, `root_cluster`, `reserved2`, `signature`). -/
structure FatBootFat32 where
  sectors_per_fat : Nat
  version : Nat
  root_cluster : Nat
  reserved2 : List Nat
  signature : Nat
deriving DecidableEq

/-- Boot sector (`struct fat_boot`). Modelled from the spec and the field
uses in `vfat.c`; only the fields the code reads are kept. -/
structure FatBoot where
  bytes_per_sector : Nat
  sectors_per_cluster : Nat
  reserved_sectors : Nat
  fat_count : Nat
  root_max_entries : Nat
  total_sectors_small : Nat
  sectors_per_fat_small : Nat
  total_sectors : Nat
  fat32 : FatBootFat32
deriving DecidableEq

/-- `sectors_to_bytes` (vfat.c:105-107): sector count times bytes per sector. -/
def sectors_to_bytes (b : FatBoot) (number_of_sectors : Nat) : Nat :=
  number_of_sectors * b.bytes_per_sector

/-- The cluster count derived in `check_boot_validity` (vfat.c:271-274).
The C subtraction `total_sectors - (reserved + sectors_per_fat*fat_count)`
is performed in `uint32_t`, hence the `% 2 ^ 32` wraparound. -/
def count_clusters (b : FatBoot) : Nat :=
  ((b.total_sectors + 2 ^ 32
      - (b.reserved_sectors + b.fat32.sectors_per_fat * b.fat_count) % 2 ^ 32) % 2 ^ 32)
    / b.sectors_per_cluster

/-- `check_boot_validity` (vfat.c:224-279), as a boolean: `true` means every
check passed; `false` means `errx` aborts initialization. -/
def check_boot_validity (b : FatBoot) : Bool :=
  (b.bytes_per_sector == 512 || b.bytes_per_sector == 1024
      || b.bytes_per_sector == 2048 || b.bytes_per_sector == 4096)
    && (b.sectors_per_cluster == 1 || b.sectors_per_cluster == 2
      || b.sectors_per_cluster == 4 || b.sectors_per_cluster == 8
      || b.sectors_per_cluster == 16 || b.sectors_per_cluster == 32
      || b.sectors_per_cluster == 64 || b.sectors_per_cluster == 128)
    && decide (sectors_to_bytes b b.sectors_per_cluster < 32768)
    && b.fat_count == 2
    && b.root_max_entries == 0
    && b.total_sectors_small == 0
    && b.sectors_per_fat_small == 0
    && b.fat32.version == 0
    && b.fat32.signature == 0xAA55
    && b.fat32.reserved2.all (fun x => x == 0)
    && decide (65525 ≤ count_clusters b)

/-- The derived geometry fields of `struct vfat_data` (vfat.c:37-40). -/
structure VfatGeometry where
  fat_begin : Nat
  clusters_begin : Nat
  fat_size : Nat
  clusters_size : Nat
deriving DecidableEq

/-- The geometry computation of `vfat_init` (vfat.c:305-313). The sector sum
`reserved_sectors + sectors_per_fat * fat_count` is computed in `uint32_t`
in the C source, hence the `% 2 ^ 32`. -/
def vfat_init (b : FatBoot) : VfatGeometry :=
  { fat_begin := sectors_to_bytes b b.reserved_sectors
    fat_size := sectors_to_bytes b b.fat32.sectors_per_fat
    clusters_begin := sectors_to_bytes b
      ((b.reserved_sectors + b.fat32.sectors_per_fat * b.fat_count) % 2 ^ 32)
    clusters_size := sectors_to_bytes b b.sectors_per_cluster }

/-- `cluster_to_bytes` (vfat.c:112-115): byte offset of data cluster
`cluster_number` (the first data cluster is cluster 2). -/
def cluster_to_bytes (g : VfatGeometry) (cluster_number : Nat) : Nat :=
  g.clusters_begin + (cluster_number - 2) * g.clusters_size

/-- One step of the FAT chain of `follow_fat_chain` (vfat.c:88,98): the
entry with its 4 upper bits masked off, or `none` when the masked entry is
`≥ 0xFFFFFF8` (end of chain). -/
def fat_next (fat_content : Nat → Nat) (offset : Nat) : Option Nat :=
  let entry := fat_content offset &&& 0xFFFFFFF
  if entry < 0xFFFFFF8 then some entry else none

/-- The cluster-visit order of `follow_fat_chain` (vfat.c:82-100), fueled.
`some l` is the list of clusters visited before the end-of-chain marker;
`none` means the fuel ran out, i.e. the do-while loop is still running
after `fuel` iterations (the C source has no iteration bound at all). -/
def follow_fat_chain (fat_content : Nat → Nat) : Nat → Nat → Option (List Nat)
  | 0, _ => none
  | fuel + 1, offset =>
    let entry := fat_content offset &&& 0xFFFFFFF
    if entry < 0xFFFFFF8 then
      (follow_fat_chain fat_content fuel entry).map (fun rest => offset :: rest)
    else
      some [offset]

/-- The loop body of `trim_filename` (vfat.c:137-141): keep every byte that
is not a space. -/
def trim_go : List Nat → List Nat
  | [] => []
  | c :: rest => if c ≠ 0x20 then c :: trim_go rest else trim_go rest

/-- `trim_filename` (vfat.c:131-145): iterates over the 11 bytes of the
short name and drops every `0x20` byte (the C loop runs `i = 0..10`). -/
def trim_filename (nameext : List Nat) : List Nat :=
  trim_go (nameext.take 11)

def VFAT_ATTR_DIR : Nat := 0x10
def VFAT_ATTR_VOLUME_ID : Nat := 0x08
def VFAT_ATTR_LFN : Nat := 0x0F

/-- A decoded 32-byte directory record as the scanning loops use it:
`name` holds the `trim_filename` output, `off` the record's byte offset
inside the cluster buffer. Field byte offsets follow `struct
fat32_direntry` (modelled from the spec's record layout: name[11] at 0,
attribute byte at 11, cluster-hi at 20, cluster-lo at 26, size at 28). -/
structure Fat32Direntry where
  off : Nat
  name : List Nat
  attr : Nat
  cluster_hi : Nat
  cluster_lo : Nat
  size : Nat
deriving DecidableEq

/-- Little-endian 16-bit read at byte index `i`. -/
def rd16 (mem : Nat → Nat) (i : Nat) : Nat := mem i + 256 * mem (i + 1)

/-- Little-endian 32-bit read at byte index `i`. -/
def rd32 (mem : Nat → Nat) (i : Nat) : Nat :=
  mem i + 256 * mem (i + 1) + 65536 * mem (i + 2) + 16777216 * mem (i + 3)

/-- Decoding of the record at byte offset `off` (the `memcpy` plus
`trim_filename` in vfat.c:161,176/375,395). -/
def parse_direntry (mem : Nat → Nat) (off : Nat) : Fat32Direntry :=
  { off := off
    name := trim_filename ((List.range 11).map (fun i => mem (off + i)))
    attr := mem (off + 11)
    cluster_hi := rd16 mem (off + 20)
    cluster_lo := rd16 mem (off + 26)
    size := rd32 mem (off + 28) }

/-- `entry.cluster_hi << 16 | entry.cluster_lo` (vfat.c:178-179,397). -/
def first_cluster_of (e : Fat32Direntry) : Nat :=
  e.cluster_hi <<< 16 ||| e.cluster_lo

/-- The record scan of `read_directory_cluster` (vfat.c:151-190) as the list
of records it decodes and prints, in order. The do-while processes the
record at `offset` unconditionally, advances by 32, and continues exactly
when the next record's first byte is nonzero; a record starting `0xE5` is
skipped, a record whose attribute has all `VFAT_ATTR_LFN` bits is skipped. -/
def read_directory_cluster (mem : Nat → Nat) : Nat → Nat → List Fat32Direntry
  | 0, _ => []
  | fuel + 1, offset =>
    (if mem offset ≠ 0xE5 then
        (if (parse_direntry mem offset).attr &&& VFAT_ATTR_LFN ≠ VFAT_ATTR_LFN then
          [parse_direntry mem offset]
        else [])
      else [])
      ++ (if mem (offset + 32) ≠ 0 then read_directory_cluster mem fuel (offset + 32) else [])

/-- The loop of `vfat_readdir` (vfat.c:363-411): returns the list of entries
passed to the filler, in order, together with the final value of
`e->first_cluster` (which the loop overwrites with the first cluster of
every emitted entry, so it ends as the last emitted entry's cluster, or as
the initial `e` when nothing was emitted). The filler is invoked for every
decoded record — the volume-id / invalid attribute bits only change the
printed tag and the stat mode, not whether the record is emitted. -/
def vfat_readdir (mem : Nat → Nat) : Nat → Nat → Nat → List Fat32Direntry × Nat
  | 0, _, e => ([], e)
  | fuel + 1, offset, e =>
    let here :=
      if mem offset ≠ 0xE5 then
        (if (parse_direntry mem offset).attr &&& VFAT_ATTR_LFN ≠ VFAT_ATTR_LFN then
          ([parse_direntry mem offset], first_cluster_of (parse_direntry mem offset))
        else (([] : List Fat32Direntry), e))
      else (([] : List Fat32Direntry), e)
    if mem (offset + 32) ≠ 0 then
      let rest := vfat_readdir mem fuel (offset + 32) here.2
      (here.1 ++ rest.1, rest.2)
    else here

/-- The byte indices the scanning do-while of
`read_directory_cluster`/`vfat_readdir` reads from the cluster buffer, in
order: the first byte of each record (the `0xE5` test), the 32 record
bytes when the record is copied, and — always — the first byte of the
following record, which the `while (cluster[offset] != 0)` condition reads
after `offset += 32` with no bound against the buffer's size. -/
def scan_reads (mem : Nat → Nat) : Nat → Nat → List Nat
  | 0, _ => []
  | fuel + 1, offset =>
    (if mem offset ≠ 0xE5 then (List.range 32).map (fun i => offset + i) else [offset])
      ++ [offset + 32]
      ++ (if mem (offset + 32) ≠ 0 then scan_reads mem fuel (offset + 32) else [])

/-- Bytes of a C string: everything before the first NUL. -/
def cstr (l : List Nat) : List Nat := l.takeWhile (fun c => c ≠ 0)

/-- `vfat_search_entry` (vfat.c:423-435) over a whole scan: `found` is set
exactly when some emitted entry's name (as a C string) equals the searched
name. -/
def vfat_search_entry (entries : List Fat32Direntry) (target : List Nat) : Bool :=
  entries.any (fun e => cstr e.name == target)

/-- Scan fuel used by the resolver model; large enough for every concrete
cluster considered here. -/
def SCAN_FUEL : Nat := 64

/-- `vfat_resolve` (vfat.c:438-479). `clusters c` is the byte content the
buffer holds after `read_cluster(·, c)`; `st` models the `struct stat`
the search filler writes (only `st_size` is kept — vfat.c:391 sets it to
the constant 30 for every emitted entry); `e` models
`e->first_cluster`. The C source calls `strchr(path_v, ch)` where `ch` is
a `char[2]` array although `strchr` expects an `int` character, so the
byte actually searched for is the low byte of a stack address —
unspecified; it is the parameter `g` here (`g = 47` is the separator `'/'`
the code plainly intends, i.e. the most favorable case). The returned
triple is (the OUTERMOST call's `sd.found` — the result of the recursive
call on the rest of the path is discarded by the source, only its writes
through the shared `st` and `e` pointers survive —, final `st`, final
`e->first_cluster`). -/
def vfat_resolve (g : Nat) (clusters : Nat → Nat → Nat) :
    Nat → List Nat → Option Nat → Nat → Bool × Option Nat × Nat
  | 0, _, st, e => (false, st, e)
  | fuel + 1, path, st, e =>
    let path_v := path.dropWhile (fun c => c == 47)
    let idx := path_v.findIdx? (fun c => c == g)
    let comp :=
      match idx with
      | some i => path_v.take i
      | none => path_v
    let scan := vfat_readdir (clusters e) SCAN_FUEL 0 e
    let found := vfat_search_entry scan.1 comp
    let st1 := if found then some 30 else st
    if found then
      match idx with
      | some i =>
        let deeper := vfat_resolve g clusters fuel (path_v.drop i) st1 scan.2
        (true, deeper.2.1, deeper.2.2)
      | none => (true, st1, scan.2)
    else (false, st1, scan.2)

/-- `vfat_fuse_getattr` (vfat.c:482-507). For `"/"` it fills root
attributes and returns 0. For any other path it searches the ROOT
directory for `path+1` (the whole remainder after one leading slash — no
component splitting) via `vfat_readdir` and returns 0 unconditionally;
`sd.found` is never consulted and `-ENOENT` is never returned (the line is
commented out in the source). Result: (return code, the `st_size` the
search wrote, or `none` when no entry matched and `st` is untouched). -/
def vfat_fuse_getattr (clusters : Nat → Nat → Nat) (root_cluster : Nat)
    (path : List Nat) : Int × Option Nat :=
  if path = [47] then (0, some 0)
  else
    let scan := vfat_readdir (clusters root_cluster) SCAN_FUEL 0 root_cluster
    (0, if vfat_search_entry scan.1 (path.drop 1) then some 30 else none)

/-- `vfat_fuse_read` (vfat.c:552-563), verbatim: asserts `size > 1` (the
`none` branch models the failed assert), writes `'X'`,`'Y'` into the
destination buffer and returns 2, ignoring the path, the offset and the
file contents entirely. Result: (return value, bytes written). -/
def vfat_fuse_read (path : List Nat) (size : Nat) (offs : Nat) :
    Option (Nat × List Nat) :=
  if 1 < size then some (2, [88, 89]) else none

/-! ### Concrete fixtures used by the scenario theorems -/

/-- Build the 32 bytes of one on-disk directory record from an 11-byte
name field, the attribute byte, the first-cluster number and the size. -/
def mk_record (nameext : List Nat) (attr clusterNum fileSize : Nat) : List Nat :=
  nameext ++ [attr]
    ++ List.replicate 8 0
    ++ [clusterNum / 65536 % 256, clusterNum / 16777216 % 256]
    ++ [0, 0, 0, 0]
    ++ [clusterNum % 256, clusterNum / 256 % 256]
    ++ [fileSize % 256, fileSize / 256 % 256, fileSize / 65536 % 256,
        fileSize / 16777216 % 256]

/-- View a byte list as memory: bytes past the end read as 0. -/
def mem_of (l : List Nat) : Nat → Nat := fun i => l.getD i 0

/-- 11-byte name field `"SUB"` padded with 8 spaces. -/
def subNameext : List Nat := [83, 85, 66] ++ List.replicate 8 32

/-- 11-byte name field `"A       TXT"` (base `"A"`, extension `"TXT"`). -/
def atxtNameext : List Nat := [65] ++ List.replicate 7 32 ++ [84, 88, 84]

/-- Root directory cluster: one subdirectory record `"SUB"` (first cluster
4), then an all-zero end-of-directory record. -/
def rootClusterBytes : List Nat := mk_record subNameext 0x10 4 0 ++ List.replicate 32 0

/-- Cluster 4 (directory `SUB`): one file record `"A       TXT"` (archive
attribute, first cluster 5, size 10), then an end-of-directory record. -/
def subClusterBytes : List Nat := mk_record atxtNameext 0x20 5 10 ++ List.replicate 32 0

/-- The scenario volume of the spec: root directory at cluster 2 holding
`"SUB"`, which holds `"A.TXT"` (size 10, first cluster 5). -/
def scenario_clusters : Nat → Nat → Nat := fun c =>
  if c = 2 then mem_of rootClusterBytes
  else if c = 4 then mem_of subClusterBytes
  else fun _ => 0

/-- Path `"/SUB/A.TXT"` as bytes. -/
def pathSubAtxt : List Nat := [47, 83, 85, 66, 47, 65, 46, 84, 88, 84]

/-- Path `"/SUB/MISSING.TXT"` as bytes. -/
def pathSubMissing : List Nat :=
  [47, 83, 85, 66, 47, 77, 73, 83, 83, 73, 78, 71, 46, 84, 88, 84]

/-- Path `"/MISSING.TXT"` as bytes. -/
def pathMissing : List Nat := [47, 77, 73, 83, 83, 73, 78, 71, 46, 84, 88, 84]

/-- The spec's passing boot sector: 512-byte sectors, 8 sectors per
cluster, 2 FATs, signature 0xAA55, and total sectors chosen so the derived
cluster count is exactly 70000. -/
def scenario_boot : FatBoot :=
  { bytes_per_sector := 512
    sectors_per_cluster := 8
    reserved_sectors := 32
    fat_count := 2
    root_max_entries := 0
    total_sectors_small := 0
    sectors_per_fat_small := 0
    total_sectors := 561126
    fat32 :=
      { sectors_per_fat := 547
        version := 0
        root_cluster := 2
        reserved2 := List.replicate 12 0
        signature := 0xAA55 } }

/-- The same boot sector with `fat_count = 1`. -/
def scenario_boot_one_fat : FatBoot := { scenario_boot with fat_count := 1 }

/-- 11-byte name field `"VOL"` padded with 8 spaces. -/
def volNameext : List Nat := [86, 79, 76] ++ List.replicate 8 32

/-- A directory cluster whose single record is a volume-id record
(attribute `0x08`), followed by an end-of-directory record. -/
def volClusterBytes : List Nat := mk_record volNameext 0x08 0 0 ++ List.replicate 32 0

/-- A directory cluster whose very first record already starts with 0x00. -/
def zeroClusterBytes : List Nat := List.replicate 64 0

/-- A 512-byte cluster entirely made of 0xE5 (deleted) records: no record
starts with 0x00, so the scanning loop only stops on what it finds at and
past offset 512 — outside the buffer (modelled as 0 there). -/
def e5Cluster : Nat → Nat := fun i => if i < 512 then 0xE5 else 0

/-- Same 512-byte cluster, but the stack garbage just past the buffer
(offsets 512-543) is nonzero, so the loop decodes a 32-byte "record" that
lies entirely outside the buffer before stopping. -/
def e5ClusterGarbage : Nat → Nat :=
  fun i => if i < 512 then 0xE5 else if i < 544 then 65 else 0

/-! ### Spec-side definitions (written from the spec's words, for
comparison with the source embedding) -/

/-- The boot-sector checks exactly as the spec lists them (section 4.1).
The derived cluster count is written with the `uint32` wraparound the
source's types impose on the subtraction. -/
def spec_boot_checks (b : FatBoot) : Prop :=
  (b.bytes_per_sector = 512 ∨ b.bytes_per_sector = 1024
      ∨ b.bytes_per_sector = 2048 ∨ b.bytes_per_sector = 4096)
    ∧ (b.sectors_per_cluster = 1 ∨ b.sectors_per_cluster = 2
      ∨ b.sectors_per_cluster = 4 ∨ b.sectors_per_cluster = 8
      ∨ b.sectors_per_cluster = 16 ∨ b.sectors_per_cluster = 32
      ∨ b.sectors_per_cluster = 64 ∨ b.sectors_per_cluster = 128)
    ∧ b.bytes_per_sector * b.sectors_per_cluster < 32768
    ∧ b.fat_count = 2
    ∧ b.root_max_entries = 0
    ∧ b.total_sectors_small = 0
    ∧ b.sectors_per_fat_small = 0
    ∧ b.fat32.version = 0
    ∧ b.fat32.signature = 0xAA55
    ∧ (∀ x ∈ b.fat32.reserved2, x = 0)
    ∧ 65525 ≤
        ((b.total_sectors + 2 ^ 32
            - (b.reserved_sectors + b.fat32.sectors_per_fat * b.fat_count) % 2 ^ 32)
          % 2 ^ 32) / b.sectors_per_cluster

/-! ### Helper lemmas -/

/-- `check_boot_validity` succeeds exactly when every check of the spec's
list holds. -/
theorem check_boot_validity_iff (b : FatBoot) :
    check_boot_validity b = true ↔ spec_boot_checks b := by
  unfold check_boot_validity spec_boot_checks count_clusters sectors_to_bytes
  rw [Nat.mul_comm b.bytes_per_sector b.sectors_per_cluster]
  simp only [Bool.and_eq_true, Bool.or_eq_true, beq_iff_eq, decide_eq_true_eq,
    List.all_eq_true]
  tauto

/-- The loop of `trim_filename` keeps exactly the non-space bytes, in
order. -/
theorem trim_go_eq_filter (l : List Nat) :
    trim_go l = l.filter (fun c => c != 0x20) := by
  induction l with
  | nil => rfl
  | cons c rest ih =>
    by_cases h : c = 0x20
    · simp [trim_go, h, ih]
    · simp [trim_go, h, ih]

/-- The entries `vfat_readdir` passes to the filler are exactly the records
`read_directory_cluster` decodes: both loops share the same skip/stop
logic. -/
theorem vfat_readdir_entries_eq (mem : Nat → Nat) :
    ∀ fuel offset e,
      (vfat_readdir mem fuel offset e).1 = read_directory_cluster mem fuel offset := by
  intro fuel
  induction fuel with
  | zero => intro offset e; rfl
  | succ k ih =>
    intro offset e
    by_cases he : mem offset ≠ 0xE5 <;>
      by_cases ha : (parse_direntry mem offset).attr &&& VFAT_ATTR_LFN ≠ VFAT_ATTR_LFN <;>
      by_cases h32 : mem (offset + 32) ≠ 0 <;>
      simp [vfat_readdir, read_directory_cluster, he, ha, h32, ih]

/-- Structural facts about one `vfat_readdir` scan: every emitted entry
comes from a record whose first byte is not 0xE5 and whose attribute does
not have all the long-name bits; its offset is at or after the scan start;
and every later record boundary up to it was seen to be nonzero by the
loop condition (so nothing at or after a 0x00 record — other than the
very first record, which the do-while processes before any test — is ever
emitted). -/
theorem vfat_readdir_mem_spec (mem : Nat → Nat) :
    ∀ fuel offset e entry, entry ∈ (vfat_readdir mem fuel offset e).1 →
      mem entry.off ≠ 0xE5
      ∧ entry.attr &&& VFAT_ATTR_LFN ≠ VFAT_ATTR_LFN
      ∧ offset ≤ entry.off
      ∧ ∀ k, 0 < k → offset + 32 * k ≤ entry.off → mem (offset + 32 * k) ≠ 0 := by
  intro fuel
  induction fuel with
  | zero => intro offset e entry h; simp [vfat_readdir] at h
  | succ n ih =>
    intro offset e entry h
    have hoff : (parse_direntry mem offset).off = offset := rfl
    have step : ∀ e', mem (offset + 32) ≠ 0 →
        entry ∈ (vfat_readdir mem n (offset + 32) e').1 →
        mem entry.off ≠ 0xE5 ∧ entry.attr &&& VFAT_ATTR_LFN ≠ VFAT_ATTR_LFN
          ∧ offset ≤ entry.off
          ∧ ∀ k, 0 < k → offset + 32 * k ≤ entry.off → mem (offset + 32 * k) ≠ 0 := by
      intro e' h32 hmem
      obtain ⟨h1, h2, h3, h4⟩ := ih (offset + 32) e' entry hmem
      refine ⟨h1, h2, by omega, fun k hk hle => ?_⟩
      rcases Nat.lt_or_ge k 2 with hk2 | hk2
      · have hk1 : k = 1 := by omega
        subst hk1
        simpa using h32
      · have hrw : offset + 32 * k = offset + 32 + 32 * (k - 1) := by omega
        rw [hrw]
        exact h4 (k - 1) (by omega) (by omega)
    have hereCase : entry = parse_direntry mem offset → ¬ mem offset = 0xE5 →
        ¬ (parse_direntry mem offset).attr &&& VFAT_ATTR_LFN = VFAT_ATTR_LFN →
        mem entry.off ≠ 0xE5 ∧ entry.attr &&& VFAT_ATTR_LFN ≠ VFAT_ATTR_LFN
          ∧ offset ≤ entry.off
          ∧ ∀ k, 0 < k → offset + 32 * k ≤ entry.off → mem (offset + 32 * k) ≠ 0 := by
      intro heq he ha
      subst heq
      rw [hoff]
      exact ⟨he, ha, le_refl _, fun k hk hle => absurd hle (by omega)⟩
    simp only [vfat_readdir] at h
    by_cases he : mem offset = 0xE5
    · by_cases h32 : mem (offset + 32) = 0
      · simp [he, h32] at h
      · simp [he, h32] at h
        exact step e h32 h
    · by_cases ha : (parse_direntry mem offset).attr &&& VFAT_ATTR_LFN = VFAT_ATTR_LFN
      · by_cases h32 : mem (offset + 32) = 0
        · simp [he, ha, h32] at h
        · simp [he, ha, h32] at h
          exact step e h32 h
      · by_cases h32 : mem (offset + 32) = 0
        · simp [he, ha, h32] at h
          exact hereCase h he ha
        · simp [he, ha, h32] at h
          rcases h with h | h
          · exact hereCase h he ha
          · exact step (first_cluster_of (parse_direntry mem offset)) h32 h

/-- A record whose first byte is not 0xE5 and whose attribute is not a
long-name fragment is always emitted by the scan (whatever its volume-id
or invalid bits say). -/
theorem vfat_readdir_mem_emit (mem : Nat → Nat) (fuel offset e : Nat)
    (he : mem offset ≠ 0xE5)
    (ha : (parse_direntry mem offset).attr &&& VFAT_ATTR_LFN ≠ VFAT_ATTR_LFN) :
    parse_direntry mem offset ∈ (vfat_readdir mem (fuel + 1) offset e).1 := by
  by_cases h32 : mem (offset + 32) ≠ 0
  · simp [vfat_readdir, he, ha, h32]
  · simp [vfat_readdir, he, ha, h32]

/-! ### Claim theorems -/

/-- C1 (code_bug): `vfat_fuse_read` is placeholder code. Whatever the path,
offset and requested length, it writes the two bytes `'X'`,`'Y'` into the
buffer and returns 2 — here evaluated at the spec's scenario request
(offset 500, length 50 on `"/SUB/A.TXT"`), where the claim demands the 50
file bytes `[500,512)` of cluster 1 followed by `[0,38)` of cluster 2. -/
theorem c1_fuse_read_stub :
    vfat_fuse_read pathSubAtxt 50 500 = some (2, [88, 89]) ∧ (2 : Nat) ≠ 50 :=
  ⟨rfl, by decide⟩

/-- C2 (code_bug): on the spec's scenario volume (root holds directory
`"SUB"`, which holds file `"A.TXT"` of size 10 at first cluster 5),
`vfat_resolve` — even with the `strchr` garbage byte `g` taken as the
intended separator 47 = `'/'` — reports `"/SUB/A.TXT"` found with
`st_size = 30` (the constant vfat.c:391 stores for every entry) instead
of the entry's size 10, and reports `"/SUB/MISSING.TXT"` found as well,
because the result of the recursive call is discarded (vfat.c:471,476);
moreover the stored short name decodes to `"ATXT"`, so the component
`"A.TXT"` can never match at all. -/
theorem c2_resolve_divergence :
    vfat_resolve 47 scenario_clusters 8 pathSubAtxt none 2 = (true, some 30, 5)
    ∧ (30 : Nat) ≠ 10
    ∧ vfat_resolve 47 scenario_clusters 8 pathSubMissing none 2 = (true, some 30, 5) :=
  ⟨by decide, by decide, by decide⟩

/-- C3 (confirmed): `check_boot_validity` fails exactly when one of the
spec's listed checks fails (the derived cluster count being computed with
the `uint32` wraparound the C types impose), and the spec's scenario boot
sector (512-byte sectors, 8 sectors/cluster, 2 FATs, signature 0xAA55,
derived cluster count 70000) passes while the same sector with
`fat_count = 1` is rejected. -/
theorem c3_boot_validation :
    (∀ b, check_boot_validity b = true ↔ spec_boot_checks b)
    ∧ check_boot_validity scenario_boot = true
    ∧ check_boot_validity scenario_boot_one_fat = false :=
  ⟨check_boot_validity_iff, by decide, by decide⟩

/-- C7 (code_bug): `follow_fat_chain` has no iteration bound or cycle
detection: on a FAT whose entry for cluster 2 is 2 (a self-loop), the
do-while never reaches an end-of-chain marker — for every fuel bound the
fueled walk is still running (`none`), so the C loop runs forever instead
of reporting corruption. -/
theorem c7_no_cycle_guard :
    ∀ fuel, follow_fat_chain (fun _ => 2) fuel 2 = none := by
  intro fuel
  induction fuel with
  | zero => rfl
  | succ k ih =>
    have hmask : 2 &&& 0xFFFFFFF = 2 := by decide
    simp [follow_fat_chain, hmask, ih]

/-- C9 (code_bug): `vfat_fuse_getattr` returns 0 (success) for every path;
for the non-existent `"/MISSING.TXT"` on the scenario volume the search
finds nothing (the stat is never written, modelled `none`) yet the
function still returns 0 rather than a not-found result (the `-ENOENT`
return is commented out in the source; `-ENOENT = -2`). -/
theorem c9_getattr_always_success :
    vfat_fuse_getattr scenario_clusters 2 pathMissing = (0, none)
    ∧ (0 : Int) ≠ -2 :=
  ⟨by decide, by decide⟩

/-- C10 (code_bug): the record scan's continuation test
`while (cluster[offset] != 0)` is not bounded by the cluster size. On a
512-byte cluster consisting entirely of 0xE5 records the loop reads byte
offset 512 — one past the buffer — and when the memory just past the
buffer is nonzero it decodes a whole 32-byte "record" from outside the
buffer (reading up to offset 543) before stopping. -/
theorem c10_scan_reads_past_buffer :
    512 ∈ scan_reads e5Cluster 17 0 ∧ 543 ∈ scan_reads e5ClusterGarbage 18 0 :=
  ⟨by decide, by decide⟩

/-- C4 counterexample: the padded 8.3 field `"FOO     TXT"` decodes to
`"FOOTXT"`, not to the dot-joined `"FOO.TXT"` the claim states:
`trim_filename` deletes every space byte and never inserts a dot. -/
theorem c4_trim_counterexample :
    trim_filename [70, 79, 79, 32, 32, 32, 32, 32, 84, 88, 84] = [70, 79, 79, 84, 88, 84]
    ∧ trim_filename [70, 79, 79, 32, 32, 32, 32, 32, 84, 88, 84]
        ≠ [70, 79, 79, 46, 84, 88, 84] :=
  ⟨by decide, by decide⟩

/-- C4 (corrected): decoding an 11-byte 8.3 name field removes every space
byte (0x20) — interior ones included — and concatenates what remains with
no dot ever inserted; in particular a field with an all-space extension
decodes to the bare name with no trailing dot. -/
theorem c4_trim_amended :
    (∀ nameext : List Nat,
        trim_filename nameext = (nameext.take 11).filter (fun c => c != 0x20))
    ∧ (∀ base : List Nat, base.length = 8 →
        trim_filename (base ++ [32, 32, 32]) = base.filter (fun c => c != 0x20)) := by
  have hf : ∀ l : List Nat, trim_filename l = (l.take 11).filter (fun c => c != 0x20) :=
    fun l => trim_go_eq_filter (l.take 11)
  refine ⟨hf, fun base hb => ?_⟩
  rw [hf]
  have hlen : (base ++ [32, 32, 32]).length ≤ 11 := by simp [hb]
  rw [List.take_of_length_le hlen, List.filter_append]
  simp

/-- C4 witness: the amended statement applied to the concrete base
`"BAR     "` (all-space extension): decodes to `"BAR"`, no trailing dot. -/
theorem c4_trim_amended_witness :
    trim_filename ([66, 65, 82, 32, 32, 32, 32, 32] ++ [32, 32, 32]) = [66, 65, 82] := by
  rw [c4_trim_amended.2 [66, 65, 82, 32, 32, 32, 32, 32] (by decide)]
  decide

/-- C5 counterexample: a cluster whose single record is a volume-id record
(attribute 0x08) has that record emitted through the filler by
`vfat_readdir` — the volume-id bit only changes the printed tag, not
emission — and a cluster whose very first record starts with 0x00 still
has that record decoded, because the do-while tests the terminator only
after processing a record. Both contradict the claim. -/
theorem c5_scan_counterexample :
    (vfat_readdir (mem_of volClusterBytes) 4 0 99).1.map Fat32Direntry.attr = [0x08]
    ∧ 0x08 &&& VFAT_ATTR_VOLUME_ID ≠ 0
    ∧ (read_directory_cluster (mem_of zeroClusterBytes) 4 0).length = 1 :=
  ⟨by decide, by decide, by decide⟩

/-- C5 (corrected): scanning 32-byte records from offset 0: a 0xE5 record
is skipped and scanning continues; a record with all long-name attribute
bits set is never emitted; a record starting 0x00 at any position AFTER
the first ends the scan before that record is decoded (no entry at or
past its offset is emitted) — but the first record is processed before
any terminator test, and records with the volume-id or invalid bits set
ARE emitted both in decoding and in directory listings (the listing and
the printing loop emit the same records). -/
theorem c5_scan_amended :
    (∀ mem fuel offset e entry, entry ∈ (vfat_readdir mem fuel offset e).1 →
        mem entry.off ≠ 0xE5 ∧ entry.attr &&& VFAT_ATTR_LFN ≠ VFAT_ATTR_LFN)
    ∧ (∀ mem fuel offset e entry, entry ∈ (vfat_readdir mem fuel offset e).1 →
        ∀ k, 0 < k → offset + 32 * k ≤ entry.off → mem (offset + 32 * k) ≠ 0)
    ∧ (∀ mem fuel offset e, mem offset ≠ 0xE5 →
        (parse_direntry mem offset).attr &&& VFAT_ATTR_LFN ≠ VFAT_ATTR_LFN →
        parse_direntry mem offset ∈ (vfat_readdir mem (fuel + 1) offset e).1)
    ∧ (∀ mem fuel offset e,
        (vfat_readdir mem fuel offset e).1 = read_directory_cluster mem fuel offset) := by
  refine ⟨fun mem fuel offset e entry h => ?_, fun mem fuel offset e entry h => ?_,
    fun mem fuel offset e he ha => vfat_readdir_mem_emit mem fuel offset e he ha,
    fun mem fuel offset e => vfat_readdir_entries_eq mem fuel offset e⟩
  · obtain ⟨h1, h2, _, _⟩ := vfat_readdir_mem_spec mem fuel offset e entry h
    exact ⟨h1, h2⟩
  · exact (vfat_readdir_mem_spec mem fuel offset e entry h).2.2.2

/-- C5 witness: the amended statement applied concretely — the volume-id
record of `volClusterBytes` is emitted by the scan, and by the first
conjunct its first byte is not 0xE5. -/
theorem c5_scan_amended_witness :
    parse_direntry (mem_of volClusterBytes) 0
        ∈ (vfat_readdir (mem_of volClusterBytes) 4 0 99).1
    ∧ mem_of volClusterBytes (parse_direntry (mem_of volClusterBytes) 0).off ≠ 0xE5 := by
  have hmem := c5_scan_amended.2.2.1 (mem_of volClusterBytes) 3 0 99 (by decide) (by decide)
  exact ⟨hmem, (c5_scan_amended.1 (mem_of volClusterBytes) 4 0 99 _ hmem).1⟩

/-- C6 (confirmed): the FAT step of `follow_fat_chain`: the entry with its
upper 4 bits masked off is the next cluster when it is below the
end-of-chain threshold 0xFFFFFF8, otherwise the chain ends — and the
chain walk continues exactly on `some` and stops exactly on `none`. -/
theorem c6_fat_next (fat_content : Nat → Nat) (n m fuel : Nat) :
    (fat_content n &&& 0xFFFFFFF < 0xFFFFFF8 →
        fat_next fat_content n = some (fat_content n &&& 0xFFFFFFF))
    ∧ (0xFFFFFF8 ≤ fat_content n &&& 0xFFFFFFF → fat_next fat_content n = none)
    ∧ (fat_next fat_content n = none →
        follow_fat_chain fat_content (fuel + 1) n = some [n])
    ∧ (fat_next fat_content n = some m →
        follow_fat_chain fat_content (fuel + 1) n
          = (follow_fat_chain fat_content fuel m).map (fun rest => n :: rest)) := by
  by_cases hlt : fat_content n &&& 0xFFFFFFF < 0xFFFFFF8
  · refine ⟨fun _ => ?_, fun h2 => absurd hlt (Nat.not_lt.mpr h2), fun h3 => ?_, fun h4 => ?_⟩
    · simp [fat_next, hlt]
    · simp [fat_next, hlt] at h3
    · have hm : fat_content n &&& 0xFFFFFFF = m := by simpa [fat_next, hlt] using h4
      have hstep : follow_fat_chain fat_content (fuel + 1) n
          = (follow_fat_chain fat_content fuel (fat_content n &&& 0xFFFFFFF)).map
              (fun rest => n :: rest) := by
        simp [follow_fat_chain, hlt]
      rw [hstep, hm]
  · refine ⟨fun h1 => absurd h1 hlt, fun _ => ?_, fun _ => ?_, fun h4 => ?_⟩
    · simp [fat_next, hlt]
    · simp [follow_fat_chain, hlt]
    · simp [fat_next, hlt] at h4

/-- C6 witness: the four parts of the theorem at concrete FATs: an entry 5
is followed, an entry 0xFFFFFF8 ends the chain, and the walk
correspondingly recurses or stops. -/
theorem c6_fat_next_witness :
    fat_next (fun _ => 5) 0 = some ((fun _ => 5) 0 &&& 0xFFFFFFF)
    ∧ fat_next (fun _ => 0xFFFFFF8) 0 = none
    ∧ follow_fat_chain (fun _ => 0xFFFFFF8) 3 0 = some [0]
    ∧ follow_fat_chain (fun _ => 5) 3 7
      = (follow_fat_chain (fun _ => 5) 2 5).map (fun rest => 7 :: rest) :=
  ⟨(c6_fat_next (fun _ => 5) 0 0 0).1 (by decide),
   (c6_fat_next (fun _ => 0xFFFFFF8) 0 0 0).2.1 (by decide),
   (c6_fat_next (fun _ => 0xFFFFFF8) 0 0 2).2.2.1 (by decide),
   (c6_fat_next (fun _ => 5) 7 5 2).2.2.2 (by decide)⟩

/-- C8 (confirmed): for every boot sector passing validation, the geometry
`vfat_init` derives satisfies the spec's formulas — the sector sum for the
cluster region computed in the source's 32-bit unsigned arithmetic — the
cluster size is below 32768, and every data cluster `n ≥ 2` maps to
`cluster_region_offset + (n-2) * cluster_size_bytes`. The geometry is a
pure function of the boot sector, computed once at mount. -/
theorem c8_geometry (b : FatBoot) (h : check_boot_validity b = true) :
    (vfat_init b).fat_begin = b.reserved_sectors * b.bytes_per_sector
    ∧ (vfat_init b).clusters_begin
        = ((b.reserved_sectors + b.fat32.sectors_per_fat * b.fat_count) % 2 ^ 32)
            * b.bytes_per_sector
    ∧ (vfat_init b).clusters_size = b.sectors_per_cluster * b.bytes_per_sector
    ∧ (vfat_init b).clusters_size < 32768
    ∧ ∀ n, 2 ≤ n → cluster_to_bytes (vfat_init b) n
        = ((b.reserved_sectors + b.fat32.sectors_per_fat * b.fat_count) % 2 ^ 32)
            * b.bytes_per_sector
          + (n - 2) * (b.sectors_per_cluster * b.bytes_per_sector) := by
  have hlt : b.bytes_per_sector * b.sectors_per_cluster < 32768 :=
    ((check_boot_validity_iff b).mp h).2.2.1
  refine ⟨rfl, rfl, rfl, ?_, fun n _ => rfl⟩
  simpa [vfat_init, sectors_to_bytes, Nat.mul_comm] using hlt

/-- C8 witness: the geometry theorem applied to the scenario boot sector
(cluster size 4096 < 32768; cluster 5 maps to the stated offset). -/
theorem c8_geometry_witness :
    (vfat_init scenario_boot).clusters_size < 32768
    ∧ cluster_to_bytes (vfat_init scenario_boot) 5
      = ((32 + 547 * 2) % 2 ^ 32) * 512 + (5 - 2) * (8 * 512) := by
  have h := c8_geometry scenario_boot (by decide)
  exact ⟨h.2.2.2.1, h.2.2.2.2 5 (by decide)⟩

end VFat
